import Mathlib

/-!
Shallow embedding of the geospatial journey-reconstruction pipeline of the
`jet-lag-munich` repository.  Two script variants are embedded:

* namespace `Og`  — `animate_timeline_real_nyc_og.py` (dataclass variant);
* namespace `Nyc` — `animate_timeline_real_nyc.py` (dict variant).

Real-number arithmetic of the source (Python floats) is modelled over `ℚ`.
Planar distances are represented by their squares (`distSq`), and distance
tolerances by squared tolerances: for a nonnegative tolerance `t`,
`dist ≤ t ↔ distSq ≤ t^2`, so every comparison in the source is preserved
order-isomorphically.  Python exceptions are modelled by `Except String` /
`Option` return types: an `Except.error` (resp. `none` for the parsers)
marks an input on which the source raises.
-/

/-- A generic helper shared by both variants: the position and element of
the first minimum of `f` over a list (ties broken by scan order).  Returns
`none` exactly on the empty list.  `pandas.Series.idxmin` returns the
index label of that first-minimum entry — over a plain list this is the
position, and over a list of `(label, row)` entries the label is the
entry's first component. -/
def argminFirstBy {α : Type} (f : α → ℚ) : List α → Option (Nat × α)
  | [] => none
  | a :: as =>
    match argminFirstBy f as with
    | none => some (0, a)
    | some (j, b) => if f a ≤ f b then some (0, a) else some (j + 1, b)

/-- First-occurrence deduplication with an accumulator of already-seen
keys: keeps the first occurrence of every element not in `seen`, dropping
later repeats (consecutive or not).  Used as the specification against
which the imperative dedup loop of the og snapper is proved. -/
def firstOccurrences {α : Type} [DecidableEq α] : List α → List α → List α
  | [], _ => []
  | x :: xs, seen =>
    if x ∈ seen then firstOccurrences xs seen
    else x :: firstOccurrences xs (x :: seen)

/-- The documented snap tolerance of both variants: 0.005 degrees
(`max_distance` default of `find_nearest_station` / `_find_nearest_station`). -/
def default_max_distance : ℚ := 0.005

namespace Og

/-- Dataclass `TimelineLocation` of `animate_timeline_real_nyc_og.py`
(coordinates only; the optional name/place-id/timestamp metadata is not
read by any embedded operation). -/
structure TimelineLocation where
  lat : ℚ
  lon : ℚ
deriving Repr, DecidableEq

/-- Dataclass `TimelineSegment` of `animate_timeline_real_nyc_og.py`
(timestamps omitted: no embedded operation reads them). -/
structure TimelineSegment where
  start_location : TimelineLocation
  end_location : TimelineLocation
  waypoints : List TimelineLocation
  activity_type : String
  duration_seconds : ℚ := 0
  distance_meters : Int := 0
deriving Repr, DecidableEq

/-- One row of the station layer loaded by `RealNYCSubwayLoader`: a point
geometry `Point(lon, lat)` plus the optional `station_label` property. -/
structure Station where
  lon : ℚ
  lat : ℚ
  station_label : Option String
deriving Repr, DecidableEq

/-- Squared planar distance between a timeline point and a station,
modelling `subway_stations.geometry.distance(Point(point.lon, point.lat))`
(shapely's Euclidean distance on raw lon/lat) squared. -/
def distSq (point : TimelineLocation) (s : Station) : ℚ :=
  (s.lon - point.lon) ^ 2 + (s.lat - point.lat) ^ 2

/-- `SubwaySnapExtractor.find_nearest_station`, for an aligned station
layer, one whose index labels equal positions (a `RangeIndex`): the source
mixes `distances.idxmin()` (an index label) with `.iloc[...]` (positional),
which coincide exactly in the aligned case; `Og.find_nearest_station_labeled`
below is the general labeled model and `Og.find_nearest_station_labeled_enum` proves
this definition is its aligned instance.  Returns
`(min_distance_idx, station_name)` when the minimal distance is within the
tolerance, `(None, None)` (here `none`) when the station set is missing
(`None`), empty, or the nearest station is too far.  `max_distance_sq` is
the squared `max_distance` argument. -/
def find_nearest_station (point : TimelineLocation)
    (subway_stations : Option (List Station)) (max_distance_sq : ℚ) :
    Option (Nat × String) :=
  match subway_stations with
  | none => none
  | some stations =>
    if stations.isEmpty then none
    else
      match argminFirstBy (distSq point) stations with
      | none => none
      | some (min_distance_idx, station) =>
        if distSq point station ≤ max_distance_sq then
          some (min_distance_idx,
            station.station_label.getD ("Station " ++ toString min_distance_idx))
        else none

/-- Row of the `snapped_stations_data` records built by
`snap_subway_journey_to_infrastructure`: original station index, display
name, 1-based journey order, and the station's geometry. -/
structure SnappedData where
  original_idx : Nat
  station_name : String
  journey_order : Nat
  lon : ℚ
  lat : ℚ
deriving Repr, DecidableEq

/-- The snapping loop of `snap_subway_journey_to_infrastructure`: walks the
journey points, appends the nearest-station index and data record for each
point that snaps to a station index not already collected
(`station_idx is not None and station_idx not in snapped_station_indices`). -/
def snapPointsLoop (stations : List Station) (max_distance_sq : ℚ) :
    List TimelineLocation → List Nat → List SnappedData →
    List Nat × List SnappedData
  | [], idxs, data => (idxs, data)
  | point :: rest, idxs, data =>
    match find_nearest_station point (some stations) max_distance_sq with
    | none => snapPointsLoop stations max_distance_sq rest idxs data
    | some (station_idx, station_name) =>
      if station_idx ∈ idxs then
        snapPointsLoop stations max_distance_sq rest idxs data
      else
        let station := stations.getD station_idx ⟨0, 0, none⟩
        snapPointsLoop stations max_distance_sq rest (idxs ++ [station_idx])
          (data ++ [⟨station_idx, station_name, data.length + 1,
                     station.lon, station.lat⟩])

/-- The per-segment body of `snap_subway_journey_to_infrastructure`: forms
`all_journey_points = [start_location, *waypoints, end_location]`, snaps
them, and returns `([], None)` when nothing snapped. -/
def snapFirstSubwaySegment (subway_segment : TimelineSegment)
    (subway_stations : List Station) (max_distance_sq : ℚ) :
    List Nat × Option (List SnappedData) :=
  let all_journey_points :=
    subway_segment.start_location ::
      (subway_segment.waypoints ++ [subway_segment.end_location])
  let r := snapPointsLoop subway_stations max_distance_sq all_journey_points [] []
  if r.2.isEmpty then ([], none) else (r.1, some r.2)

/-- `SubwaySnapExtractor.snap_subway_journey_to_infrastructure`: filters
the `IN_SUBWAY` segments, returns `([], None)` when there are none, and
otherwise snaps only the first one. -/
def snap_subway_journey_to_infrastructure (segments : List TimelineSegment)
    (subway_stations : List Station) (max_distance_sq : ℚ) :
    List Nat × Option (List SnappedData) :=
  match segments.filter (fun seg => seg.activity_type == "IN_SUBWAY") with
  | [] => ([], none)
  | subway_segment :: _ =>
    snapFirstSubwaySegment subway_segment subway_stations max_distance_sq

/-- Timeline location field map consumed by the parsers: the integer-valued
(E7-encoded) fields of one raw JSON location/waypoint object, as a key
association list.  A key absent from the list models a key absent from the
JSON object. -/
abbrev Fields := List (String × Int)

/-- The og parser's location handling for segment start/end locations
(`parse_timeline_data`, activitySegment branch):
`lon_key = "longitudeE7" if "longitudeE7" in data else "lngE7"`, then a
direct subscript `data[lat/lon key]` — a missing key raises `KeyError`,
modelled by `none`. -/
def parse_segment_location (location_data : Fields) : Option TimelineLocation :=
  match location_data.lookup "latitudeE7" with
  | none => none
  | some lat_e7 =>
    let lon_key :=
      if (location_data.lookup "longitudeE7").isSome then "longitudeE7" else "lngE7"
    match location_data.lookup lon_key with
    | none => none
    | some lon_e7 => some ⟨(lat_e7 : ℚ) / 10 ^ 7, (lon_e7 : ℚ) / 10 ^ 7⟩

/-- The og parser's place-visit location handling (`parse_timeline_data`,
placeVisit branch): direct subscripts `location_data["latitudeE7"]` and
`location_data["longitudeE7"]`, no fallback key and no default — a missing
key raises `KeyError`, modelled by `none`. -/
def parse_place_visit_location (location_data : Fields) : Option TimelineLocation :=
  match location_data.lookup "latitudeE7", location_data.lookup "longitudeE7" with
  | some lat_e7, some lon_e7 =>
    some ⟨(lat_e7 : ℚ) / 10 ^ 7, (lon_e7 : ℚ) / 10 ^ 7⟩
  | _, _ => none

/-- The geographic bounding box tuple `(min_lon, min_lat, max_lon, max_lat)`
used by `RealTransitMapGenerator.generate_real_transit_map`. -/
structure Bounds4 where
  min_lon : ℚ
  min_lat : ℚ
  max_lon : ℚ
  max_lat : ℚ
deriving Repr, DecidableEq

/-- `RealTransitMapGenerator.create_geodataframe`'s point collection: all
place-visit locations, then for each segment its start, end, and
waypoints. -/
def collect_all_locations (locations : List TimelineLocation)
    (segments : List TimelineSegment) : List TimelineLocation :=
  locations ++
    segments.flatMap (fun seg =>
      [seg.start_location, seg.end_location] ++ seg.waypoints)

/-- `timeline_gdf.total_bounds`: componentwise min/max over the collected
points (the source yields NaNs on an empty frame; the `[]` case here is a
junk value, and every theorem about bounds assumes a nonempty collection). -/
def total_bounds (locs : List TimelineLocation) : Bounds4 :=
  match locs with
  | [] => ⟨0, 0, 0, 0⟩
  | l :: ls =>
    ⟨ls.foldl (fun m p => min m p.lon) l.lon,
     ls.foldl (fun m p => min m p.lat) l.lat,
     ls.foldl (fun m p => max m p.lon) l.lon,
     ls.foldl (fun m p => max m p.lat) l.lat⟩

/-- The minimum-coverage step of `generate_real_transit_map`: each axis
narrower than `min_range` is re-centered to a span of exactly `min_range`
around its own center. -/
def ensure_min_span (b : Bounds4) (min_range : ℚ) : Bounds4 :=
  ⟨if b.max_lon - b.min_lon < min_range then
      (b.min_lon + b.max_lon) / 2 - min_range / 2
    else b.min_lon,
   if b.max_lat - b.min_lat < min_range then
      (b.min_lat + b.max_lat) / 2 - min_range / 2
    else b.min_lat,
   if b.max_lon - b.min_lon < min_range then
      (b.min_lon + b.max_lon) / 2 + min_range / 2
    else b.max_lon,
   if b.max_lat - b.min_lat < min_range then
      (b.min_lat + b.max_lat) / 2 + min_range / 2
    else b.max_lat⟩

/-- The aspect-correction step of `generate_real_transit_map`: the axis
that is narrow relative to `target_aspect` is grown symmetrically so that
`lon_range / lat_range` becomes exactly `target_aspect`. -/
def aspect_correct (b : Bounds4) (target_aspect : ℚ) : Bounds4 :=
  let lon_range := b.max_lon - b.min_lon
  let lat_range := b.max_lat - b.min_lat
  let current_aspect := lon_range / lat_range
  if current_aspect < target_aspect then
    let new_lon_range := lat_range * target_aspect
    let lon_expansion := (new_lon_range - lon_range) / 2
    ⟨b.min_lon - lon_expansion, b.min_lat, b.max_lon + lon_expansion, b.max_lat⟩
  else if current_aspect > target_aspect then
    let new_lat_range := lon_range / target_aspect
    let lat_expansion := (new_lat_range - lat_range) / 2
    ⟨b.min_lon, b.min_lat - lat_expansion, b.max_lon, b.max_lat + lat_expansion⟩
  else b

/-- The final padding step of `generate_real_transit_map`: symmetric
padding of `pad_fraction` of the current span on each side of each axis. -/
def add_padding (b : Bounds4) (pad_fraction : ℚ) : Bounds4 :=
  let lon_padding := (b.max_lon - b.min_lon) * pad_fraction
  let lat_padding := (b.max_lat - b.min_lat) * pad_fraction
  ⟨b.min_lon - lon_padding, b.min_lat - lat_padding,
   b.max_lon + lon_padding, b.max_lat + lat_padding⟩

/-- The bounds computation of `generate_real_transit_map` end to end, with
the source's literals: `min_range = 0.015`, `target_aspect = 16 / 9`,
padding fraction `0.25`. -/
def generate_real_transit_map_bounds (locations : List TimelineLocation)
    (segments : List TimelineSegment) : Bounds4 :=
  add_padding
    (aspect_correct
      (ensure_min_span (total_bounds (collect_all_locations locations segments))
        0.015)
      (16 / 9))
    0.25

/-- `SimpleCoordinateConverter`: map bounds plus the scene size (source
defaults `scene_width = 14`, `scene_height = 8`). -/
structure SimpleCoordinateConverter where
  min_lon : ℚ
  min_lat : ℚ
  max_lon : ℚ
  max_lat : ℚ
  scene_width : ℚ := 14
  scene_height : ℚ := 8
deriving Repr, DecidableEq

/-- `SimpleCoordinateConverter.to_scene_coords`: normalize each axis into
[0,1] against the bounds span, guarding a zero span by a normalized
position of 0.5, then map to `(norm - 0.5) * scene_dimension` (the
source's z component, constantly 0, is dropped). -/
def to_scene_coords (c : SimpleCoordinateConverter) (lat lon : ℚ) : ℚ × ℚ :=
  let lon_range := c.max_lon - c.min_lon
  let lat_range := c.max_lat - c.min_lat
  let norm_x := if lon_range ≠ 0 then (lon - c.min_lon) / lon_range else 0.5
  let norm_y := if lat_range ≠ 0 then (lat - c.min_lat) / lat_range else 0.5
  ((norm_x - 0.5) * c.scene_width, (norm_y - 0.5) * c.scene_height)

end Og

/-- A structured Python value, the model of what `json.loads` can return
(and of plain dict values), used by the line-color extraction. -/
inductive PyVal where
  | pstr (s : String)
  | pint (n : Int)
  | plist (xs : List PyVal)
  | pdict (fields : List (String × PyVal))

namespace Nyc

/-- One row of the station layer of `animate_timeline_real_nyc.py`: a point
geometry `Point(lon, lat)` plus the optional `name` property (this variant
reads `name`, not `station_label`). -/
structure Station where
  lon : ℚ
  lat : ℚ
  name : Option String
deriving Repr, DecidableEq

/-- Squared planar distance between raw `(lat, lng)` coordinates and a
station, modelling `self.stations_gdf.geometry.distance(Point(lng, lat))`
squared. -/
def distSq (lat lng : ℚ) (s : Station) : ℚ :=
  (s.lon - lng) ^ 2 + (s.lat - lat) ^ 2

/-- `SubwaySnapExtractor._find_nearest_station`, for an aligned station
layer (index labels equal to positions; see `Nyc.find_nearest_station_labeled`
for the general labeled model and `Nyc.nearest_station_labeled_enum` for the
reduction): unlike the og variant it has no emptiness guard, so
`distances.idxmin()` on an empty station layer raises `ValueError`
(modelled by `Except.error`).  On a nonempty aligned layer it returns the
first-minimum station when within tolerance, else `None`. -/
def find_nearest_station (lat lng : ℚ) (stations : List Station)
    (max_distance_sq : ℚ) : Except String (Option Station) :=
  match argminFirstBy (distSq lat lng) stations with
  | none => Except.error "attempt to get argmin of an empty sequence"
  | some (_, station) =>
    if distSq lat lng station ≤ max_distance_sq then Except.ok (some station)
    else Except.ok none

/-- One entry of the `snapped_stations` list built by
`_snap_subway_activity`: the snapped station's coordinates, its display
name, and `journey_order = i + 1` for the `i`-th waypoint (0-based). -/
structure SnappedStation where
  lat : ℚ
  lng : ℚ
  station_name : String
  journey_order : Nat
deriving Repr, DecidableEq

/-- The waypoint loop of `_snap_subway_activity` (`for i, waypoint in
enumerate(waypoints)`): every waypoint that finds a nearby station appends
one entry — there is no deduplication in this variant.  A lookup error
(empty station layer) propagates. -/
def snapWaypointsLoop (stations : List Station) (max_distance_sq : ℚ) :
    List (ℚ × ℚ) → Nat → Except String (List SnappedStation)
  | [], _ => Except.ok []
  | (wlat, wlng) :: rest, i =>
    match find_nearest_station wlat wlng stations max_distance_sq with
    | Except.error e => Except.error e
    | Except.ok none => snapWaypointsLoop stations max_distance_sq rest (i + 1)
    | Except.ok (some nearest_station) =>
      match snapWaypointsLoop stations max_distance_sq rest (i + 1) with
      | Except.error e => Except.error e
      | Except.ok snapped =>
        Except.ok
          (⟨nearest_station.lat, nearest_station.lon,
            nearest_station.name.getD ("Station " ++ toString (i + 1)),
            i + 1⟩ :: snapped)

/-- `SubwaySnapExtractor._snap_subway_activity`, restricted to its
observable output, the `snapped_stations` list: an activity with no
waypoints is returned unchanged (so it carries no snapped stations), and
otherwise only the waypoints — never the segment's start or end
location — are candidates for snapping. -/
def snap_subway_activity (waypoints : List (ℚ × ℚ)) (stations : List Station)
    (max_distance_sq : ℚ) : Except String (List SnappedStation) :=
  if waypoints.isEmpty then Except.ok []
  else snapWaypointsLoop stations max_distance_sq waypoints 0

/-- Raw field maps of one location object, as in `Og.Fields`. -/
abbrev Fields := List (String × Int)

/-- Python's `dict.get(key, default)` on an integer field map. -/
def pyGet (d : Fields) (key : String) (default : Int) : Int :=
  (d.lookup key).getD default

/-- The coordinate handling of `GoogleMapsTimelineParser._parse_place_visit`
(and identically of `_parse_activity_segment` for start/end locations):
`lat_e7 = location.get("latitudeE7", 0)`,
`lng_e7 = location.get("longitudeE7", location.get("lngE7", 0))`,
each divided by 1e7 — missing fields default to 0 and nothing raises. -/
def parse_location_coords (location : Fields) : ℚ × ℚ :=
  let lat_e7 := pyGet location "latitudeE7" 0
  let lng_e7 := pyGet location "longitudeE7" (pyGet location "lngE7" 0)
  ((lat_e7 : ℚ) / 10 ^ 7, (lng_e7 : ℚ) / 10 ^ 7)

/-- The waypoint handling of `_parse_activity_segment`:
`waypoint.get("latE7", 0)` and `waypoint.get("lngE7", 0)`, a distinct
key pair with the same default-to-0 posture. -/
def parse_waypoint_coords (waypoint : Fields) : ℚ × ℚ :=
  ((pyGet waypoint "latE7" 0 : ℚ) / 10 ^ 7,
   (pyGet waypoint "lngE7" 0 : ℚ) / 10 ^ 7)

/-- The value of the `properties` field handed to `extract_line_color` in
`RealNYCSubwayLoader._process_line_colors`: `missing` models `None`/`NaN`;
`ofStr s parsed` models a string `s` together with its `json.loads` result
(`none` when `s` is not valid JSON); `ofDict fields` models a dict passed
through unparsed (the annotated non-string case `str | dict | None`). -/
inductive LinesField where
  | missing
  | ofStr (s : String) (parsed : Option PyVal)
  | ofDict (fields : List (String × PyVal))

/-- The body of `extract_line_color` after a successful `json.loads` (or
with a dict passed through): `isinstance(lines_data, list)`, nonempty,
first element a dict, `"color" in first_line` — otherwise the default. -/
def color_of_lines_data : PyVal → PyVal
  | PyVal.plist [] => PyVal.pstr "#000000"
  | PyVal.plist (first_line :: _) =>
    match first_line with
    | PyVal.pdict fields => (fields.lookup "color").getD (PyVal.pstr "#000000")
    | _ => PyVal.pstr "#000000"
  | _ => PyVal.pstr "#000000"

/-- `extract_line_color` of `RealNYCSubwayLoader._process_line_colors`:
`pd.isna(properties) or not properties` yields the default `"#000000"`;
a string is `json.loads`-parsed with `JSONDecodeError/KeyError/TypeError`
caught (default); a dict falls through `isinstance(lines_data, list)` to
the default.  Total: no input raises. -/
def extract_line_color : LinesField → PyVal
  | LinesField.missing => PyVal.pstr "#000000"
  | LinesField.ofStr s parsed =>
    if s = "" then PyVal.pstr "#000000"
    else
      match parsed with
      | none => PyVal.pstr "#000000"
      | some lines_data => color_of_lines_data lines_data
  | LinesField.ofDict fields =>
    if fields.isEmpty then PyVal.pstr "#000000"
    else color_of_lines_data (PyVal.pdict fields)

/-- The map-bounds tuple `(min_lng, min_lat, max_lng, max_lat)` consumed by
`CoordinateConverter`. -/
structure MapBounds where
  min_lng : ℚ
  min_lat : ℚ
  max_lng : ℚ
  max_lat : ℚ
deriving Repr, DecidableEq

/-- `CoordinateConverter.lat_lng_to_manim` with the source's fixed scene
size 14 × 7.875: unguarded division by the axis spans, so a zero span
raises `ZeroDivisionError` (modelled by `Except.error`; the x axis is
evaluated first, as in the source). -/
def lat_lng_to_manim (b : MapBounds) (lat lng : ℚ) : Except String (ℚ × ℚ) :=
  if b.max_lng - b.min_lng = 0 then Except.error "float division by zero"
  else if b.max_lat - b.min_lat = 0 then Except.error "float division by zero"
  else
    let x_norm := (lng - b.min_lng) / (b.max_lng - b.min_lng)
    let y_norm := (lat - b.min_lat) / (b.max_lat - b.min_lat)
    Except.ok ((x_norm - 0.5) * 14, (y_norm - 0.5) * 7.875)

end Nyc

/-- Modelled from the spec's description of color extraction, for the
refinement comparison of claim C9: "locate an embedded line-metadata
field; if it is a JSON-encoded array, parse it; take the first element's
color attribute; on any parse failure, missing field, empty array, or
missing color attribute, use a fixed default color". -/
def extract_line_color_spec (f : Nyc.LinesField) : PyVal :=
  match f with
  | Nyc.LinesField.ofStr s (some (PyVal.plist (first :: _))) =>
    if s = "" then PyVal.pstr "#000000"
    else
      match first with
      | PyVal.pdict fields => (fields.lookup "color").getD (PyVal.pstr "#000000")
      | _ => PyVal.pstr "#000000"
  | _ => PyVal.pstr "#000000"

/-- A labeled station layer: the station rows of the loaded feature
collection paired with their index labels.  Both loaders build the layer
by boolean-mask filtering without `reset_index`
(`gdf[gdf.geometry.geom_type == "Point"].copy()`), so each row keeps as
label its position in the whole mixed FeatureCollection; labels equal
positions only when the point features come first (the aligned case,
`List.enum`). -/
abbrev LabeledStations (σ : Type) : Type := List (Nat × σ)

/-- `SubwaySnapExtractor.find_nearest_station` over a labeled station
layer, tracing the source's indexing exactly:
`min_distance_idx = distances.idxmin()` is the index label of the
first-minimum entry, but `distances.iloc[min_distance_idx]` and
`subway_stations.iloc[min_distance_idx]` then use that label positionally.
When the label is not a valid position this raises `IndexError`
(`Except.error`); when it is a valid position of a different row, the
wrong station's distance is compared against the tolerance and the wrong
station is returned. -/
def Og.find_nearest_station_labeled (point : Og.TimelineLocation)
    (subway_stations : Option (LabeledStations Og.Station))
    (max_distance_sq : ℚ) : Except String (Option (Nat × String)) :=
  match subway_stations with
  | none => Except.ok none
  | some stations =>
    if stations.isEmpty then Except.ok none
    else
      match argminFirstBy (fun ls => Og.distSq point ls.2) stations with
      | none => Except.ok none
      | some (_, labeled_min) =>
        let min_distance_idx := labeled_min.1
        match stations[min_distance_idx]? with
        | none => Except.error "single positional indexer is out-of-bounds"
        | some entry =>
          let min_distance := Og.distSq point entry.2
          if min_distance ≤ max_distance_sq then
            Except.ok (some (min_distance_idx,
              entry.2.station_label.getD
                ("Station " ++ toString min_distance_idx)))
          else Except.ok none

/-- `SubwaySnapExtractor._find_nearest_station` over a labeled station
layer, with the same `idxmin`-label / `.iloc`-position mix as the og
lookup (and no emptiness guard: `idxmin` on an empty series raises
`ValueError`). -/
def Nyc.find_nearest_station_labeled (lat lng : ℚ)
    (stations : LabeledStations Nyc.Station) (max_distance_sq : ℚ) :
    Except String (Option Nyc.Station) :=
  match argminFirstBy (fun ls => Nyc.distSq lat lng ls.2) stations with
  | none => Except.error "attempt to get argmin of an empty sequence"
  | some (_, labeled_min) =>
    match stations[labeled_min.1]? with
    | none => Except.error "single positional indexer is out-of-bounds"
    | some entry =>
      if Nyc.distSq lat lng entry.2 ≤ max_distance_sq then
        Except.ok (some entry.2)
      else Except.ok none

mutual

/-- Python `repr` of a structured value (containers as rendered inside an
f-string): strings single-quoted (embedded-quote escaping is not
modelled; the color metadata carries plain hex strings), integers in
decimal, lists bracketed and dicts braced with comma-separated entries. -/
def pyRepr : PyVal → String
  | PyVal.pstr s => "'" ++ s ++ "'"
  | PyVal.pint n => toString n
  | PyVal.plist xs => "[" ++ pyReprSeq xs ++ "]"
  | PyVal.pdict fields => "\x7b" ++ pyReprFields fields ++ "\x7d"

/-- Comma-separated `repr` of a Python list's elements. -/
def pyReprSeq : List PyVal → String
  | [] => ""
  | [v] => pyRepr v
  | v :: rest => pyRepr v ++ ", " ++ pyReprSeq rest

/-- Comma-separated `repr` of a Python dict's entries. -/
def pyReprFields : List (String × PyVal) → String
  | [] => ""
  | [(k, v)] => "'" ++ k ++ "': " ++ pyRepr v
  | (k, v) :: rest => "'" ++ k ++ "': " ++ pyRepr v ++ ", " ++ pyReprFields rest

end

/-- Python `str()` as applied by an f-string interpolation: a string is
itself, everything else renders via `repr`. -/
def pyStr : PyVal → String
  | PyVal.pstr s => s
  | v => pyRepr v

/-- The post-`json.loads` body of the og in-line color extraction
(`generate_real_transit_map`): `if lines_data and len(lines_data) > 0`,
take `lines_data[0]`, and `if "color" in first_line` format
`f"#\x7bfirst_line['color']\x7d"`.  All non-(nonempty-list) values end at
the default `#0039A6`: an empty list or empty string is falsy; an integer
makes `len()` raise `TypeError` and a non-empty dict makes `lines_data[0]`
raise `KeyError` (string keys only), both caught by the bare
`except Exception`; a non-dict first element either fails the `in` test or
makes the subscript raise `TypeError`, likewise caught. -/
def Og.color_of_lines_data : PyVal → String
  | PyVal.plist (first_line :: _) =>
    match first_line with
    | PyVal.pdict fields =>
      match fields.lookup "color" with
      | some c => "#" ++ pyStr c
      | none => "#0039A6"
    | _ => "#0039A6"
  | _ => "#0039A6"

/-- The og in-line color extraction of `generate_real_transit_map`
(`line_color = "#0039A6"` default; `if line.get("lines"):` then
`json.loads` inside `try`, first element's color with a `"#"` prefix,
any exception caught and the default kept).  A missing/`NaN` field ends
at the default either via falsiness (`None`) or via the caught `len(nan)`
`TypeError`; a falsy (empty) string or dict skips the `try` entirely. -/
def Og.extract_line_color : Nyc.LinesField → String
  | Nyc.LinesField.missing => "#0039A6"
  | Nyc.LinesField.ofStr s parsed =>
    if s = "" then "#0039A6"
    else
      match parsed with
      | none => "#0039A6"
      | some lines_data => Og.color_of_lines_data lines_data
  | Nyc.LinesField.ofDict fields =>
    if fields.isEmpty then "#0039A6"
    else Og.color_of_lines_data (PyVal.pdict fields)

/-- Modelled from the spec's description of color extraction as realized
by the og variant, for the refinement comparison of claim C9: first
element's color attribute (rendered with the og `"#"` prefix) when the
field is a JSON-encoded nonempty array whose first element has one, and
the og fixed default color `#0039A6` in every other case. -/
def og_extract_line_color_spec (f : Nyc.LinesField) : String :=
  match f with
  | Nyc.LinesField.ofStr s (some (PyVal.plist (first :: _))) =>
    if s = "" then "#0039A6"
    else
      match first with
      | PyVal.pdict fields =>
        match fields.lookup "color" with
        | some c => "#" ++ pyStr c
        | none => "#0039A6"
      | _ => "#0039A6"
  | _ => "#0039A6"

/-! Helper lemmas about the first-minimum scan and the dedup loop. -/

theorem argminFirstBy_eq_none {α : Type} (f : α → ℚ) (l : List α) :
    argminFirstBy f l = none ↔ l = [] := by
  induction l with
  | nil => simp [argminFirstBy]
  | cons a as ih =>
    simp only [argminFirstBy]
    cases h : argminFirstBy f as with
    | none => simp
    | some p =>
      obtain ⟨j, b⟩ := p
      by_cases hle : f a ≤ f b <;> simp [hle]

theorem argminFirstBy_mem_get {α : Type} (f : α → ℚ) (l : List α) (i : Nat) (a : α)
    (h : argminFirstBy f l = some (i, a)) : l[i]? = some a := by
  induction l generalizing i a with
  | nil => simp [argminFirstBy] at h
  | cons x xs ih =>
    simp only [argminFirstBy] at h
    cases hx : argminFirstBy f xs with
    | none =>
      rw [hx] at h
      simp only [Option.some.injEq, Prod.mk.injEq] at h
      obtain ⟨hi, ha⟩ := h
      subst hi; subst ha; simp
    | some p =>
      obtain ⟨j, b⟩ := p
      rw [hx] at h
      by_cases hle : f x ≤ f b
      · simp only [if_pos hle, Option.some.injEq, Prod.mk.injEq] at h
        obtain ⟨hi, ha⟩ := h
        subst hi; subst ha; simp
      · simp only [if_neg hle, Option.some.injEq, Prod.mk.injEq] at h
        obtain ⟨hi, ha⟩ := h
        subst ha
        have := ih j b hx
        simp [← hi, this]

theorem argminFirstBy_le {α : Type} (f : α → ℚ) (l : List α) (i : Nat) (a : α)
    (h : argminFirstBy f l = some (i, a)) : ∀ b ∈ l, f a ≤ f b := by
  induction l generalizing i a with
  | nil => simp [argminFirstBy] at h
  | cons x xs ih =>
    simp only [argminFirstBy] at h
    cases hx : argminFirstBy f xs with
    | none =>
      have hnil : xs = [] := (argminFirstBy_eq_none f xs).mp hx
      rw [hx] at h
      simp only [Option.some.injEq, Prod.mk.injEq] at h
      obtain ⟨_, ha⟩ := h
      subst ha; subst hnil
      intro b hb
      simp at hb
      subst hb; exact le_refl _
    | some p =>
      obtain ⟨j, c⟩ := p
      rw [hx] at h
      by_cases hle : f x ≤ f c
      · simp only [if_pos hle, Option.some.injEq, Prod.mk.injEq] at h
        obtain ⟨_, ha⟩ := h
        subst ha
        intro b hb
        rcases List.mem_cons.mp hb with hb | hb
        · subst hb; exact le_refl _
        · exact le_trans hle (ih j c hx b hb)
      · simp only [if_neg hle, Option.some.injEq, Prod.mk.injEq] at h
        obtain ⟨_, ha⟩ := h
        subst ha
        intro b hb
        rcases List.mem_cons.mp hb with hb | hb
        · subst hb; exact le_of_lt (lt_of_not_le hle)
        · exact ih j c hx b hb

theorem argminFirstBy_mem {α : Type} (f : α → ℚ) (l : List α) (i : Nat) (a : α)
    (h : argminFirstBy f l = some (i, a)) : a ∈ l := by
  have := argminFirstBy_mem_get f l i a h
  exact List.getElem?_mem this

theorem argminFirstBy_enumFrom {α : Type} (f : α → ℚ) :
    ∀ (l : List α) (n : Nat),
      argminFirstBy (fun p => f p.2) (List.enumFrom n l) =
        (argminFirstBy f l).map (fun r => (r.1, (n + r.1, r.2))) := by
  intro l
  induction l with
  | nil => intro n; rfl
  | cons a as ih =>
    intro n
    simp only [List.enumFrom, argminFirstBy, ih (n + 1)]
    cases h : argminFirstBy f as with
    | none => simp
    | some r =>
      obtain ⟨j, b⟩ := r
      simp only [Option.map_some']
      by_cases hle : f a ≤ f b
      · simp [hle]
      · have hadd : n + 1 + j = n + (j + 1) := by omega
        simp [hle, hadd]

theorem Og.find_nearest_station_labeled_enum (point : Og.TimelineLocation)
    (stations : List Og.Station) (max_distance_sq : ℚ) :
    Og.find_nearest_station_labeled point (some stations.enum) max_distance_sq =
      Except.ok (Og.find_nearest_station point (some stations) max_distance_sq) := by
  cases stations with
  | nil => rfl
  | cons a as =>
    have henum := argminFirstBy_enumFrom (Og.distSq point) (a :: as) 0
    cases hmin : argminFirstBy (Og.distSq point) (a :: as) with
    | none => exact absurd ((argminFirstBy_eq_none _ _).mp hmin) (by simp)
    | some r =>
      obtain ⟨i, st⟩ := r
      rw [hmin] at henum
      simp only [Option.map_some', Nat.zero_add] at henum
      have hget : (List.enumFrom 0 (a :: as))[i]? = some (i, st) :=
        argminFirstBy_mem_get _ _ _ _ henum
      have hie : (List.enumFrom 0 (a :: as)).isEmpty = false := by
        simp [List.enumFrom]
      simp only [Og.find_nearest_station_labeled, Og.find_nearest_station,
        List.enum, hie, Bool.false_eq_true, if_false, List.isEmpty_cons,
        henum, hget, hmin]
      by_cases hd : Og.distSq point st ≤ max_distance_sq <;> simp [hd]

theorem Nyc.nearest_station_labeled_enum (lat lng : ℚ)
    (stations : List Nyc.Station) (max_distance_sq : ℚ) :
    Nyc.find_nearest_station_labeled lat lng stations.enum max_distance_sq =
      Nyc.find_nearest_station lat lng stations max_distance_sq := by
  cases stations with
  | nil => rfl
  | cons a as =>
    have henum := argminFirstBy_enumFrom (Nyc.distSq lat lng) (a :: as) 0
    cases hmin : argminFirstBy (Nyc.distSq lat lng) (a :: as) with
    | none => exact absurd ((argminFirstBy_eq_none _ _).mp hmin) (by simp)
    | some r =>
      obtain ⟨i, st⟩ := r
      rw [hmin] at henum
      simp only [Option.map_some', Nat.zero_add] at henum
      have hget : (List.enumFrom 0 (a :: as))[i]? = some (i, st) :=
        argminFirstBy_mem_get _ _ _ _ henum
      simp only [Nyc.find_nearest_station_labeled, Nyc.find_nearest_station,
        List.enum, henum, hget, hmin]

theorem firstOccurrences_congr {α : Type} [DecidableEq α] (xs : List α)
    {s t : List α} (h : ∀ a, a ∈ s ↔ a ∈ t) :
    firstOccurrences xs s = firstOccurrences xs t := by
  induction xs generalizing s t with
  | nil => simp [firstOccurrences]
  | cons x xs ih =>
    simp only [firstOccurrences]
    by_cases hx : x ∈ s
    · rw [if_pos hx, if_pos ((h x).mp hx), ih h]
    · rw [if_neg hx, if_neg (fun hc => hx ((h x).mpr hc))]
      congr 1
      exact ih (fun a => by simp [h a])

theorem firstOccurrences_nodup_and_fresh {α : Type} [DecidableEq α] :
    ∀ (xs seen : List α),
      (firstOccurrences xs seen).Nodup ∧
        ∀ a ∈ firstOccurrences xs seen, a ∉ seen := by
  intro xs
  induction xs with
  | nil => intro seen; simp [firstOccurrences]
  | cons x xs ih =>
    intro seen
    simp only [firstOccurrences]
    by_cases hx : x ∈ seen
    · rw [if_pos hx]; exact ih seen
    · rw [if_neg hx]
      obtain ⟨hnd, hfresh⟩ := ih (x :: seen)
      refine ⟨List.nodup_cons.mpr ⟨fun hc => ?_, hnd⟩, ?_⟩
      · exact (hfresh x hc) (List.mem_cons_self x seen)
      · intro a ha
        rcases List.mem_cons.mp ha with ha | ha
        · subst ha; exact hx
        · exact fun hc => (hfresh a ha) (List.mem_cons_of_mem _ hc)

/-- The station index a journey point snaps to, if any: the first
projection of `Og.find_nearest_station`. -/
def Og.nearest_idx (stations : List Og.Station) (max_distance_sq : ℚ)
    (point : Og.TimelineLocation) : Option Nat :=
  (Og.find_nearest_station point (some stations) max_distance_sq).map Prod.fst

theorem Og.snapPointsLoop_fst (stations : List Og.Station) (max_distance_sq : ℚ) :
    ∀ (pts : List Og.TimelineLocation) (idxs : List Nat) (data : List Og.SnappedData),
      (Og.snapPointsLoop stations max_distance_sq pts idxs data).1 =
        idxs ++ firstOccurrences
          (pts.filterMap (Og.nearest_idx stations max_distance_sq)) idxs := by
  intro pts
  induction pts with
  | nil => intro idxs data; simp [Og.snapPointsLoop, firstOccurrences]
  | cons point rest ih =>
    intro idxs data
    simp only [Og.snapPointsLoop, List.filterMap_cons]
    cases h : Og.find_nearest_station point (some stations) max_distance_sq with
    | none => simp only [Og.nearest_idx, h, Option.map_none', ih]
    | some r =>
      obtain ⟨station_idx, station_name⟩ := r
      simp only [Og.nearest_idx, h, Option.map_some']
      by_cases hmem : station_idx ∈ idxs
      · rw [if_pos hmem, ih, firstOccurrences, if_pos hmem]
      · rw [if_neg hmem, ih, firstOccurrences, if_neg hmem,
          firstOccurrences_congr
            (s := station_idx :: idxs) (t := idxs ++ [station_idx])
            _ (fun a => by simp [or_comm])]
        simp

theorem Og.snapPointsLoop_snd (stations : List Og.Station) (max_distance_sq : ℚ) :
    ∀ (pts : List Og.TimelineLocation) (idxs : List Nat) (data : List Og.SnappedData),
      ((Og.snapPointsLoop stations max_distance_sq pts idxs data).2).map
          Og.SnappedData.original_idx =
        data.map Og.SnappedData.original_idx ++ firstOccurrences
          (pts.filterMap (Og.nearest_idx stations max_distance_sq)) idxs := by
  intro pts
  induction pts with
  | nil => intro idxs data; simp [Og.snapPointsLoop, firstOccurrences]
  | cons point rest ih =>
    intro idxs data
    simp only [Og.snapPointsLoop, List.filterMap_cons]
    cases h : Og.find_nearest_station point (some stations) max_distance_sq with
    | none => simp only [Og.nearest_idx, h, Option.map_none', ih]
    | some r =>
      obtain ⟨station_idx, station_name⟩ := r
      simp only [Og.nearest_idx, h, Option.map_some']
      by_cases hmem : station_idx ∈ idxs
      · rw [if_pos hmem, ih, firstOccurrences, if_pos hmem]
      · rw [if_neg hmem, ih, firstOccurrences, if_neg hmem,
          firstOccurrences_congr
            (s := station_idx :: idxs) (t := idxs ++ [station_idx])
            _ (fun a => by simp [or_comm])]
        simp only [List.map_append, List.map_cons, List.map_nil,
          List.append_assoc, List.singleton_append]

/-- The journey-point candidate list of the og snapper. -/
def Og.journeyPoints (seg : Og.TimelineSegment) : List Og.TimelineLocation :=
  seg.start_location :: (seg.waypoints ++ [seg.end_location])

theorem Og.snapFirstSubwaySegment_fst (seg : Og.TimelineSegment)
    (stations : List Og.Station) (max_distance_sq : ℚ) :
    (Og.snapFirstSubwaySegment seg stations max_distance_sq).1 =
      firstOccurrences
        ((Og.journeyPoints seg).filterMap (Og.nearest_idx stations max_distance_sq))
        [] := by
  simp only [Og.snapFirstSubwaySegment, Og.journeyPoints]
  have h1 := Og.snapPointsLoop_fst stations max_distance_sq
    (seg.start_location :: (seg.waypoints ++ [seg.end_location])) [] []
  have h2 := Og.snapPointsLoop_snd stations max_distance_sq
    (seg.start_location :: (seg.waypoints ++ [seg.end_location])) [] []
  simp only [List.nil_append, List.map_nil] at h1 h2
  by_cases he :
      (Og.snapPointsLoop stations max_distance_sq
        (seg.start_location :: (seg.waypoints ++ [seg.end_location])) [] []).2.isEmpty = true
  · rw [if_pos he]
    have hnil : (Og.snapPointsLoop stations max_distance_sq
        (seg.start_location :: (seg.waypoints ++ [seg.end_location])) [] []).2 = [] :=
      List.isEmpty_iff.mp he
    rw [hnil] at h2
    simp only [List.map_nil] at h2
    simpa using h2
  · rw [if_neg he]
    simpa using h1

theorem Og.snapFirstSubwaySegment_snd (seg : Og.TimelineSegment)
    (stations : List Og.Station) (max_distance_sq : ℚ) :
    (((Og.snapFirstSubwaySegment seg stations max_distance_sq).2).getD []).map
        Og.SnappedData.original_idx =
      firstOccurrences
        ((Og.journeyPoints seg).filterMap (Og.nearest_idx stations max_distance_sq))
        [] := by
  simp only [Og.snapFirstSubwaySegment, Og.journeyPoints]
  have h2 := Og.snapPointsLoop_snd stations max_distance_sq
    (seg.start_location :: (seg.waypoints ++ [seg.end_location])) [] []
  simp only [List.nil_append, List.map_nil] at h2
  by_cases he :
      (Og.snapPointsLoop stations max_distance_sq
        (seg.start_location :: (seg.waypoints ++ [seg.end_location])) [] []).2.isEmpty = true
  · rw [if_pos he]
    have hnil : (Og.snapPointsLoop stations max_distance_sq
        (seg.start_location :: (seg.waypoints ++ [seg.end_location])) [] []).2 = [] :=
      List.isEmpty_iff.mp he
    rw [hnil] at h2
    simp only [List.map_nil] at h2
    simpa using h2
  · rw [if_neg he]
    simpa using h2

theorem Og.snapPointsLoop_stations_nil (max_distance_sq : ℚ) :
    ∀ (pts : List Og.TimelineLocation) (idxs : List Nat) (data : List Og.SnappedData),
      Og.snapPointsLoop [] max_distance_sq pts idxs data = (idxs, data) := by
  intro pts
  induction pts with
  | nil => intro idxs data; rfl
  | cons point rest ih => intro idxs data; exact ih idxs data

theorem Og.snap_subway_journey_stations_nil (segments : List Og.TimelineSegment)
    (max_distance_sq : ℚ) :
    Og.snap_subway_journey_to_infrastructure segments [] max_distance_sq =
      ([], none) := by
  simp only [Og.snap_subway_journey_to_infrastructure]
  cases hf : segments.filter (fun seg => seg.activity_type == "IN_SUBWAY") with
  | nil => rfl
  | cons s rest =>
    simp only [Og.snapFirstSubwaySegment,
      Og.snapPointsLoop_stations_nil max_distance_sq
        (s.start_location :: (s.waypoints ++ [s.end_location])) [] []]
    rfl

/-! Claim theorems: snapping (C1, C2, C8, C10). -/

/-- Claim C1, amended.  The og snapper (`snap_subway_journey_to_infrastructure`
of `animate_timeline_real_nyc_og.py`) deduplicates by original station
identity, keeping only the first occurrence, so no station index appears
twice in either the returned index list or the snapped-station data, and a
journey whose points map to stations S1, S1, S2, S1 yields exactly
[S1(order=1), S2(order=2)].  (The nyc variant's `_snap_subway_activity`
performs no deduplication — see the counterexample.) -/
theorem c1_snap_dedup :
    (∀ (segments : List Og.TimelineSegment) (stations : List Og.Station)
        (max_distance_sq : ℚ),
      ((Og.snap_subway_journey_to_infrastructure segments stations
          max_distance_sq).1).Nodup ∧
      ((((Og.snap_subway_journey_to_infrastructure segments stations
          max_distance_sq).2).getD []).map Og.SnappedData.original_idx).Nodup) ∧
    Og.snapFirstSubwaySegment
        ⟨⟨0, 0⟩, ⟨0, 0⟩, [⟨0, 1 / 1000⟩, ⟨0, 10⟩], "IN_SUBWAY", 0, 0⟩
        [⟨0, 0, some "S1"⟩, ⟨10, 0, some "S2"⟩] (default_max_distance ^ 2) =
      ([0, 1], some [⟨0, "S1", 1, 0, 0⟩, ⟨1, "S2", 2, 10, 0⟩]) := by
  constructor
  · intro segments stations max_distance_sq
    simp only [Og.snap_subway_journey_to_infrastructure]
    cases hf : segments.filter (fun seg => seg.activity_type == "IN_SUBWAY") with
    | nil => simp
    | cons s rest =>
      refine ⟨?_, ?_⟩
      · rw [Og.snapFirstSubwaySegment_fst]
        exact (firstOccurrences_nodup_and_fresh _ _).1
      · rw [Og.snapFirstSubwaySegment_snd]
        exact (firstOccurrences_nodup_and_fresh _ _).1
  · norm_num [Og.snapFirstSubwaySegment, Og.snapPointsLoop, Og.find_nearest_station,
      argminFirstBy, Og.distSq, default_max_distance, List.getD]

/-- Claim C1 counterexample: the nyc variant's `_snap_subway_activity` does
not deduplicate.  With two stations S1, S2 and waypoints mapping to
S1, S1, S2, S1, it returns one entry per snapped waypoint — S1 appears
three times — and not the claimed two-entry sequence [S1(1), S2(2)]. -/
theorem c1_nyc_no_dedup_counterexample :
    Nyc.snap_subway_activity [(0, 0), (0, 1 / 1000), (0, 10), (0, 0)]
        [⟨0, 0, some "S1"⟩, ⟨10, 0, some "S2"⟩] (default_max_distance ^ 2) =
      Except.ok [⟨0, 0, "S1", 1⟩, ⟨0, 0, "S1", 2⟩, ⟨0, 10, "S2", 3⟩,
        ⟨0, 0, "S1", 4⟩] ∧
    Nyc.snap_subway_activity [(0, 0), (0, 1 / 1000), (0, 10), (0, 0)]
        [⟨0, 0, some "S1"⟩, ⟨10, 0, some "S2"⟩] (default_max_distance ^ 2) ≠
      Except.ok [⟨0, 0, "S1", 1⟩, ⟨0, 10, "S2", 2⟩] := by
  refine ⟨?_, ?_⟩ <;>
    norm_num [Nyc.snap_subway_activity, Nyc.snapWaypointsLoop,
      Nyc.find_nearest_station, argminFirstBy, Nyc.distSq, default_max_distance]

/-- Claim C2, amended.  The og snapper considers exactly the ordered point
list [start, ...waypoints, end]: its result is the first-occurrence
deduplication of the nearest-station indices of precisely those candidate
points, in travel order.  The nyc variant's `_snap_subway_activity`
consumes only the waypoint list — with no waypoints nothing at all is
considered, regardless of the station set. -/
theorem c2_snap_candidate_points :
    (∀ (seg : Og.TimelineSegment) (stations : List Og.Station)
        (max_distance_sq : ℚ),
      (Og.snapFirstSubwaySegment seg stations max_distance_sq).1 =
        firstOccurrences
          ((seg.start_location :: (seg.waypoints ++ [seg.end_location])).filterMap
            (fun point =>
              (Og.find_nearest_station point (some stations)
                max_distance_sq).map Prod.fst))
          []) ∧
    (∀ (stations : List Nyc.Station) (max_distance_sq : ℚ),
      Nyc.snap_subway_activity [] stations max_distance_sq = Except.ok []) := by
  constructor
  · intro seg stations max_distance_sq
    simpa [Og.journeyPoints, Og.nearest_idx] using
      Og.snapFirstSubwaySegment_fst seg stations max_distance_sq
  · intro stations max_distance_sq
    rfl

/-- Claim C2 counterexample: a subway segment starting and ending exactly
at station S1 with an empty waypoint list.  The og snapper (which takes
[start, ...waypoints, end] as candidates) snaps it to S1; the nyc
variant's `_snap_subway_activity` returns no snapped stations because the
start and end locations are never candidate snap points. -/
theorem c2_nyc_ignores_endpoints_counterexample :
    Nyc.snap_subway_activity [] [⟨0, 0, some "S1"⟩] (default_max_distance ^ 2) =
      Except.ok [] ∧
    Og.snapFirstSubwaySegment ⟨⟨0, 0⟩, ⟨0, 0⟩, [], "IN_SUBWAY", 0, 0⟩
        [⟨0, 0, some "S1"⟩] (default_max_distance ^ 2) =
      ([0], some [⟨0, "S1", 1, 0, 0⟩]) := by
  refine ⟨rfl, ?_⟩
  norm_num [Og.snapFirstSubwaySegment, Og.snapPointsLoop, Og.find_nearest_station,
    argminFirstBy, Og.distSq, default_max_distance, List.getD]

/-- Claim C10, confirmed.  The og batch entry point
`snap_subway_journey_to_infrastructure` is fully determined by the first
`IN_SUBWAY` segment of the input list (later subway segments contribute
nothing), returns `([], None)` when there is none, and returns
`([], None)` when no point snaps (in particular whenever the station
layer is empty). -/
theorem c10_first_subway_segment_only :
    (∀ (segments : List Og.TimelineSegment) (stations : List Og.Station)
        (max_distance_sq : ℚ),
      Og.snap_subway_journey_to_infrastructure segments stations max_distance_sq =
        match segments.find? (fun seg => seg.activity_type == "IN_SUBWAY") with
        | none => ([], none)
        | some seg => Og.snapFirstSubwaySegment seg stations max_distance_sq) ∧
    (∀ (segments : List Og.TimelineSegment) (max_distance_sq : ℚ),
      Og.snap_subway_journey_to_infrastructure segments [] max_distance_sq =
        ([], none)) := by
  constructor
  · intro segments stations max_distance_sq
    induction segments with
    | nil => rfl
    | cons s ss ih =>
      by_cases hb : (s.activity_type == "IN_SUBWAY") = true
      · simp [Og.snap_subway_journey_to_infrastructure, List.filter_cons,
          List.find?_cons, hb]
      · have hstep : Og.snap_subway_journey_to_infrastructure (s :: ss) stations
            max_distance_sq =
            Og.snap_subway_journey_to_infrastructure ss stations max_distance_sq := by
          simp [Og.snap_subway_journey_to_infrastructure, List.filter_cons, hb]
        have hfind : (s :: ss).find? (fun seg => seg.activity_type == "IN_SUBWAY") =
            ss.find? (fun seg => seg.activity_type == "IN_SUBWAY") := by
          simp [List.find?_cons, hb]
        rw [hstep, hfind]
        exact ih
  · exact fun segments max_distance_sq =>
      Og.snap_subway_journey_stations_nil segments max_distance_sq

/-- Claim C8, amended.  The og variant treats an empty or missing station
set tolerantly: `find_nearest_station` returns no match for a `None` or
empty station layer, and the og snapper then returns the empty result
`([], None)`.  The nyc variant's `_find_nearest_station`, however, has no
emptiness guard: on an empty station layer `distances.idxmin()` raises
`ValueError`, so the nyc snapper errors for any nonempty waypoint list. -/
theorem c8_empty_station_set :
    (∀ (point : Og.TimelineLocation) (max_distance_sq : ℚ),
      Og.find_nearest_station point none max_distance_sq = none) ∧
    (∀ (point : Og.TimelineLocation) (max_distance_sq : ℚ),
      Og.find_nearest_station point (some []) max_distance_sq = none) ∧
    (∀ (segments : List Og.TimelineSegment) (max_distance_sq : ℚ),
      Og.snap_subway_journey_to_infrastructure segments [] max_distance_sq =
        ([], none)) ∧
    (∀ (lat lng max_distance_sq : ℚ),
      Nyc.find_nearest_station lat lng [] max_distance_sq =
        Except.error "attempt to get argmin of an empty sequence") ∧
    (∀ (lat lng max_distance_sq : ℚ),
      Nyc.snap_subway_activity [(lat, lng)] [] max_distance_sq =
        Except.error "attempt to get argmin of an empty sequence") := by
  refine ⟨fun _ _ => rfl, fun _ _ => rfl,
    fun segments t => Og.snap_subway_journey_stations_nil segments t,
    fun _ _ _ => rfl, fun _ _ _ => rfl⟩

/-- Claim C8 counterexample: with one waypoint and an empty station layer
the nyc variant's snapper raises (`ValueError` from `idxmin` on an empty
series) instead of returning an empty snapped sequence. -/
theorem c8_nyc_empty_stations_counterexample :
    Nyc.snap_subway_activity [(0, 0)] [] (default_max_distance ^ 2) =
      Except.error "attempt to get argmin of an empty sequence" ∧
    Nyc.find_nearest_station 0 0 [] (default_max_distance ^ 2) =
      Except.error "attempt to get argmin of an empty sequence" := ⟨rfl, rfl⟩

/-! Claim theorem: nearest-station tolerance boundary (C3). -/

/-- Claim C3, amended.  On an aligned station layer — one whose index
labels equal positions, so that the source's `idxmin()` label and
`.iloc[...]` position coincide — both labeled lookups reduce to the
idealized ones (first and last conjuncts), and there, for a nonempty
station set and nonnegative (squared) tolerance, the og nearest-station
lookup succeeds exactly when some station is within tolerance of the
point — equivalently, exactly when the minimal distance is within
tolerance; a returned station attains the minimal distance over the whole
set and is itself within tolerance; a point at distance 0 from some
station always snaps; and when every station is strictly beyond tolerance
the result is `none` (a skip, not an error).  The nyc variant's lookup
agrees on nonempty aligned layers: it returns `None` exactly when every
station is strictly beyond tolerance.  On non-aligned layers, as produced
by the repo's loaders when point features do not come first, none of this
is guaranteed — see the counterexample, where a point exactly at a
station fails to snap or the lookup raises `IndexError`. -/
theorem c3_nearest_station_tolerance (point : Og.TimelineLocation)
    (stations : List Og.Station) (max_distance_sq : ℚ)
    (hne : stations ≠ []) (htol : 0 ≤ max_distance_sq) :
    (Og.find_nearest_station_labeled point (some stations.enum) max_distance_sq =
      Except.ok (Og.find_nearest_station point (some stations) max_distance_sq)) ∧
    ((Og.find_nearest_station point (some stations) max_distance_sq).isSome ↔
      ∃ s ∈ stations, Og.distSq point s ≤ max_distance_sq) ∧
    (∀ (i : Nat) (name : String),
      Og.find_nearest_station point (some stations) max_distance_sq =
        some (i, name) →
      ∃ st, stations[i]? = some st ∧ Og.distSq point st ≤ max_distance_sq ∧
        ∀ s ∈ stations, Og.distSq point st ≤ Og.distSq point s) ∧
    ((∃ s ∈ stations, Og.distSq point s = 0) →
      (Og.find_nearest_station point (some stations) max_distance_sq).isSome) ∧
    ((∀ s ∈ stations, max_distance_sq < Og.distSq point s) →
      Og.find_nearest_station point (some stations) max_distance_sq = none) ∧
    (∀ (lat lng : ℚ) (ns : List Nyc.Station), ns ≠ [] →
      (Nyc.find_nearest_station lat lng ns max_distance_sq = Except.ok none ↔
        ∀ s ∈ ns, max_distance_sq < Nyc.distSq lat lng s)) ∧
    (∀ (lat lng : ℚ) (ns : List Nyc.Station),
      Nyc.find_nearest_station_labeled lat lng ns.enum max_distance_sq =
        Nyc.find_nearest_station lat lng ns max_distance_sq) := by
  cases stations with
  | nil => exact absurd rfl hne
  | cons a as =>
  cases hmin : argminFirstBy (Og.distSq point) (a :: as) with
  | none => exact absurd ((argminFirstBy_eq_none _ _).mp hmin) (by simp)
  | some r =>
  obtain ⟨i, st⟩ := r
  have hresult : Og.find_nearest_station point (some (a :: as)) max_distance_sq =
      if Og.distSq point st ≤ max_distance_sq then
        some (i, st.station_label.getD ("Station " ++ toString i))
      else none := by
    simp only [Og.find_nearest_station, List.isEmpty_cons, Bool.false_eq_true,
      if_false, hmin]
  have hmem : st ∈ a :: as := argminFirstBy_mem _ _ _ _ hmin
  have hget : (a :: as)[i]? = some st := argminFirstBy_mem_get _ _ _ _ hmin
  have hle : ∀ s ∈ a :: as, Og.distSq point st ≤ Og.distSq point s :=
    argminFirstBy_le _ _ _ _ hmin
  refine ⟨Og.find_nearest_station_labeled_enum point (a :: as) max_distance_sq,
    ?_, ?_, ?_, ?_, ?_,
    fun lat lng ns => Nyc.nearest_station_labeled_enum lat lng ns max_distance_sq⟩
  · rw [hresult]
    by_cases hd : Og.distSq point st ≤ max_distance_sq
    · rw [if_pos hd]
      simp only [Option.isSome_some, true_iff]
      exact ⟨st, hmem, hd⟩
    · rw [if_neg hd]
      simp only [Option.isSome_none, Bool.false_eq_true, false_iff]
      rintro ⟨s, hs, hsle⟩
      exact hd (le_trans (hle s hs) hsle)
  · intro j name heq
    rw [hresult] at heq
    by_cases hd : Og.distSq point st ≤ max_distance_sq
    · rw [if_pos hd] at heq
      simp only [Option.some.injEq, Prod.mk.injEq] at heq
      obtain ⟨hj, _⟩ := heq
      subst hj
      exact ⟨st, hget, hd, hle⟩
    · rw [if_neg hd] at heq
      exact absurd heq (by simp)
  · rintro ⟨s, hs, h0⟩
    rw [hresult]
    have hd : Og.distSq point st ≤ max_distance_sq :=
      le_trans (hle s hs) (h0 ▸ htol)
    rw [if_pos hd]
    rfl
  · intro hall
    rw [hresult]
    have hd : ¬ Og.distSq point st ≤ max_distance_sq :=
      not_le.mpr (hall st hmem)
    rw [if_neg hd]
  · intro lat lng ns hns
    cases ns with
    | nil => exact absurd rfl hns
    | cons b bs =>
    cases hmin2 : argminFirstBy (Nyc.distSq lat lng) (b :: bs) with
    | none => exact absurd ((argminFirstBy_eq_none _ _).mp hmin2) (by simp)
    | some r2 =>
    obtain ⟨j, st2⟩ := r2
    have hmem2 : st2 ∈ b :: bs := argminFirstBy_mem _ _ _ _ hmin2
    have hle2 : ∀ s ∈ b :: bs, Nyc.distSq lat lng st2 ≤ Nyc.distSq lat lng s :=
      argminFirstBy_le _ _ _ _ hmin2
    have hresult2 : Nyc.find_nearest_station lat lng (b :: bs) max_distance_sq =
        if Nyc.distSq lat lng st2 ≤ max_distance_sq then Except.ok (some st2)
        else Except.ok none := by
      simp only [Nyc.find_nearest_station, hmin2]
    rw [hresult2]
    by_cases hd2 : Nyc.distSq lat lng st2 ≤ max_distance_sq
    · rw [if_pos hd2]
      simp only [Except.ok.injEq]
      constructor
      · intro h; exact absurd h (by simp)
      · intro hall
        exact absurd hd2 (not_le.mpr (hall st2 hmem2))
    · rw [if_neg hd2]
      constructor
      · intro _ s hs
        exact lt_of_lt_of_le (not_le.mp hd2) (hle2 s hs)
      · intro _; rfl

/-- Claim C3 witness: on the aligned single-station layer, the labeled
lookup reduces to the idealized one, a point exactly at the station's
coordinate snaps to it at distance 0, and all four og properties hold at
this concrete instance. -/
theorem c3_nearest_station_tolerance_witness :
    ([⟨0, 0, some "A"⟩] : List Og.Station) ≠ [] ∧
    (0 : ℚ) ≤ default_max_distance ^ 2 ∧
    ((Og.find_nearest_station_labeled ⟨0, 0⟩
        (some ([⟨0, 0, some "A"⟩] : List Og.Station).enum)
        (default_max_distance ^ 2) =
      Except.ok (Og.find_nearest_station ⟨0, 0⟩ (some [⟨0, 0, some "A"⟩])
        (default_max_distance ^ 2))) ∧
    ((Og.find_nearest_station ⟨0, 0⟩ (some [⟨0, 0, some "A"⟩])
        (default_max_distance ^ 2)).isSome ↔
      ∃ s ∈ ([⟨0, 0, some "A"⟩] : List Og.Station),
        Og.distSq ⟨0, 0⟩ s ≤ default_max_distance ^ 2) ∧
    (∀ (i : Nat) (name : String),
      Og.find_nearest_station ⟨0, 0⟩ (some [⟨0, 0, some "A"⟩])
          (default_max_distance ^ 2) = some (i, name) →
      ∃ st, ([⟨0, 0, some "A"⟩] : List Og.Station)[i]? = some st ∧
        Og.distSq ⟨0, 0⟩ st ≤ default_max_distance ^ 2 ∧
        ∀ s ∈ ([⟨0, 0, some "A"⟩] : List Og.Station),
          Og.distSq ⟨0, 0⟩ st ≤ Og.distSq ⟨0, 0⟩ s) ∧
    ((∃ s ∈ ([⟨0, 0, some "A"⟩] : List Og.Station), Og.distSq ⟨0, 0⟩ s = 0) →
      (Og.find_nearest_station ⟨0, 0⟩ (some [⟨0, 0, some "A"⟩])
        (default_max_distance ^ 2)).isSome) ∧
    ((∀ s ∈ ([⟨0, 0, some "A"⟩] : List Og.Station),
        default_max_distance ^ 2 < Og.distSq ⟨0, 0⟩ s) →
      Og.find_nearest_station ⟨0, 0⟩ (some [⟨0, 0, some "A"⟩])
        (default_max_distance ^ 2) = none) ∧
    (∀ (lat lng : ℚ) (ns : List Nyc.Station), ns ≠ [] →
      (Nyc.find_nearest_station lat lng ns (default_max_distance ^ 2) =
          Except.ok none ↔
        ∀ s ∈ ns, default_max_distance ^ 2 < Nyc.distSq lat lng s)) ∧
    (∀ (lat lng : ℚ) (ns : List Nyc.Station),
      Nyc.find_nearest_station_labeled lat lng ns.enum
          (default_max_distance ^ 2) =
        Nyc.find_nearest_station lat lng ns (default_max_distance ^ 2))) :=
  ⟨by simp, by norm_num [default_max_distance],
   c3_nearest_station_tolerance ⟨0, 0⟩ [⟨0, 0, some "A"⟩]
     (default_max_distance ^ 2) (by simp) (by norm_num [default_max_distance])⟩

/-- Claim C3 counterexample: the station layers the loaders build keep the
original FeatureCollection labels, and the source uses the `idxmin()`
label positionally.  On the layer [(1, A), (2, B)] — labels shifted by one
because a line feature precedes the stations — a point exactly at station
A (distance 0) fails to snap: `idxmin()` returns label 1, `.iloc[1]`
fetches B, and B's distance exceeds the tolerance.  On the single-entry
layer [(1, A)] the same label is out of bounds and the lookup raises
`IndexError` instead of skipping, in both variants. -/
theorem c3_label_position_counterexample :
    Og.distSq ⟨0, 0⟩ ⟨0, 0, some "A"⟩ = 0 ∧
    Og.find_nearest_station_labeled ⟨0, 0⟩
        (some [(1, ⟨0, 0, some "A"⟩), (2, ⟨10, 0, some "B"⟩)])
        (default_max_distance ^ 2) = Except.ok none ∧
    Og.find_nearest_station_labeled ⟨0, 0⟩ (some [(1, ⟨0, 0, some "A"⟩)])
        (default_max_distance ^ 2) =
      Except.error "single positional indexer is out-of-bounds" ∧
    Nyc.find_nearest_station_labeled 0 0 [(1, ⟨0, 0, some "A"⟩)]
        (default_max_distance ^ 2) =
      Except.error "single positional indexer is out-of-bounds" := by
  refine ⟨?_, ?_, ?_, ?_⟩ <;>
    norm_num [Og.find_nearest_station_labeled, Nyc.find_nearest_station_labeled,
      argminFirstBy, Og.distSq, Nyc.distSq, default_max_distance]

/-! Bounds-pipeline lemmas and claim C4. -/

theorem foldl_le_foldl {α : Type} (g h : ℚ → α → ℚ)
    (hg : ∀ m p, g m p ≤ m) (hh : ∀ m p, m ≤ h m p) :
    ∀ (ls : List α) (a b : ℚ), a ≤ b → ls.foldl g a ≤ ls.foldl h b := by
  intro ls
  induction ls with
  | nil => intro a b hab; exact hab
  | cons x xs ih =>
    intro a b hab
    exact ih _ _ (le_trans (hg a x) (le_trans hab (hh b x)))

theorem Og.total_bounds_le (locs : List Og.TimelineLocation) (h : locs ≠ []) :
    (Og.total_bounds locs).min_lon ≤ (Og.total_bounds locs).max_lon ∧
    (Og.total_bounds locs).min_lat ≤ (Og.total_bounds locs).max_lat := by
  cases locs with
  | nil => exact absurd rfl h
  | cons l ls =>
    simp only [Og.total_bounds]
    exact ⟨foldl_le_foldl _ _ (fun m p => min_le_left _ _)
        (fun m p => le_max_left _ _) ls _ _ le_rfl,
      foldl_le_foldl _ _ (fun m p => min_le_left _ _)
        (fun m p => le_max_left _ _) ls _ _ le_rfl⟩

theorem Og.ensure_min_span_spans (b : Og.Bounds4) (min_range : ℚ) :
    (Og.ensure_min_span b min_range).max_lon -
        (Og.ensure_min_span b min_range).min_lon =
      max (b.max_lon - b.min_lon) min_range ∧
    (Og.ensure_min_span b min_range).max_lat -
        (Og.ensure_min_span b min_range).min_lat =
      max (b.max_lat - b.min_lat) min_range ∧
    (Og.ensure_min_span b min_range).min_lon +
        (Og.ensure_min_span b min_range).max_lon =
      b.min_lon + b.max_lon ∧
    (Og.ensure_min_span b min_range).min_lat +
        (Og.ensure_min_span b min_range).max_lat =
      b.min_lat + b.max_lat := by
  simp only [Og.ensure_min_span]
  refine ⟨?_, ?_, ?_, ?_⟩ <;> split_ifs with h <;>
    first
      | (rw [max_eq_right (le_of_lt h)]; ring)
      | (rw [max_eq_left (not_lt.mp h)])
      | ring

theorem Og.aspect_correct_props (b : Og.Bounds4) (target_aspect : ℚ)
    (hT : 0 < b.max_lat - b.min_lat) (hA : 0 < target_aspect) :
    (b.max_lon - b.min_lon ≤ (Og.aspect_correct b target_aspect).max_lon -
        (Og.aspect_correct b target_aspect).min_lon) ∧
    (b.max_lat - b.min_lat ≤ (Og.aspect_correct b target_aspect).max_lat -
        (Og.aspect_correct b target_aspect).min_lat) ∧
    ((Og.aspect_correct b target_aspect).max_lon -
        (Og.aspect_correct b target_aspect).min_lon) /
      ((Og.aspect_correct b target_aspect).max_lat -
        (Og.aspect_correct b target_aspect).min_lat) = target_aspect ∧
    (Og.aspect_correct b target_aspect).min_lon +
        (Og.aspect_correct b target_aspect).max_lon = b.min_lon + b.max_lon ∧
    (Og.aspect_correct b target_aspect).min_lat +
        (Og.aspect_correct b target_aspect).max_lat = b.min_lat + b.max_lat := by
  simp only [Og.aspect_correct]
  split_ifs with h1 h2
  · have hlt : b.max_lon - b.min_lon <
        (b.max_lat - b.min_lat) * target_aspect := by
      have := (div_lt_iff₀ hT).mp h1
      linarith [this]
    have hspan : b.max_lon +
          ((b.max_lat - b.min_lat) * target_aspect - (b.max_lon - b.min_lon)) / 2 -
        (b.min_lon -
          ((b.max_lat - b.min_lat) * target_aspect - (b.max_lon - b.min_lon)) / 2) =
        (b.max_lat - b.min_lat) * target_aspect := by ring
    refine ⟨by linarith [hlt], le_rfl, ?_, by ring, by ring⟩
    rw [hspan, mul_div_cancel_left₀ _ hT.ne']
  · have hgt : target_aspect * (b.max_lat - b.min_lat) <
        b.max_lon - b.min_lon := (lt_div_iff₀ hT).mp h2
    have hL : 0 < b.max_lon - b.min_lon :=
      lt_trans (mul_pos hA hT) hgt
    have hspan : b.max_lat +
          ((b.max_lon - b.min_lon) / target_aspect - (b.max_lat - b.min_lat)) / 2 -
        (b.min_lat -
          ((b.max_lon - b.min_lon) / target_aspect - (b.max_lat - b.min_lat)) / 2) =
        (b.max_lon - b.min_lon) / target_aspect := by ring
    have hTle : b.max_lat - b.min_lat ≤ (b.max_lon - b.min_lon) / target_aspect :=
      (le_div_iff₀ hA).mpr (by linarith [hgt, mul_comm target_aspect (b.max_lat - b.min_lat)])
    refine ⟨le_rfl, by linarith [hTle], ?_, by ring, by ring⟩
    rw [hspan]
    field_simp
  · have heq : (b.max_lon - b.min_lon) / (b.max_lat - b.min_lat) = target_aspect :=
      le_antisymm (not_lt.mp h2) (not_lt.mp h1)
    exact ⟨le_rfl, le_rfl, heq, by ring, by ring⟩

theorem Og.add_padding_spans (b : Og.Bounds4) (pad_fraction : ℚ) :
    (Og.add_padding b pad_fraction).max_lon -
        (Og.add_padding b pad_fraction).min_lon =
      (1 + 2 * pad_fraction) * (b.max_lon - b.min_lon) ∧
    (Og.add_padding b pad_fraction).max_lat -
        (Og.add_padding b pad_fraction).min_lat =
      (1 + 2 * pad_fraction) * (b.max_lat - b.min_lat) := by
  simp only [Og.add_padding]
  exact ⟨by ring, by ring⟩

/-- The three-stage bounds pipeline, proved for arbitrary parameters: spans
after the aspect step are at least the minimum span, the aspect step makes
the span quotient exactly the target, padding preserves it, and both
correction steps are symmetric around the box center. -/
theorem Og.bounds_pipeline (b0 : Og.Bounds4) (min_range target_aspect pad_fraction : ℚ)
    (_hlon : b0.min_lon ≤ b0.max_lon) (_hlat : b0.min_lat ≤ b0.max_lat)
    (hmr : 0 < min_range) (hta : 0 < target_aspect) (hp : 0 ≤ pad_fraction) :
    (min_range ≤
        (Og.aspect_correct (Og.ensure_min_span b0 min_range) target_aspect).max_lon -
        (Og.aspect_correct (Og.ensure_min_span b0 min_range) target_aspect).min_lon) ∧
    (min_range ≤
        (Og.aspect_correct (Og.ensure_min_span b0 min_range) target_aspect).max_lat -
        (Og.aspect_correct (Og.ensure_min_span b0 min_range) target_aspect).min_lat) ∧
    ((Og.aspect_correct (Og.ensure_min_span b0 min_range) target_aspect).max_lon -
        (Og.aspect_correct (Og.ensure_min_span b0 min_range) target_aspect).min_lon) /
      ((Og.aspect_correct (Og.ensure_min_span b0 min_range) target_aspect).max_lat -
        (Og.aspect_correct (Og.ensure_min_span b0 min_range) target_aspect).min_lat) =
      target_aspect ∧
    ((Og.add_padding
        (Og.aspect_correct (Og.ensure_min_span b0 min_range) target_aspect)
        pad_fraction).max_lon -
      (Og.add_padding
        (Og.aspect_correct (Og.ensure_min_span b0 min_range) target_aspect)
        pad_fraction).min_lon) /
      ((Og.add_padding
          (Og.aspect_correct (Og.ensure_min_span b0 min_range) target_aspect)
          pad_fraction).max_lat -
        (Og.add_padding
          (Og.aspect_correct (Og.ensure_min_span b0 min_range) target_aspect)
          pad_fraction).min_lat) = target_aspect ∧
    (Og.ensure_min_span b0 min_range).min_lon +
        (Og.ensure_min_span b0 min_range).max_lon = b0.min_lon + b0.max_lon ∧
    (Og.ensure_min_span b0 min_range).min_lat +
        (Og.ensure_min_span b0 min_range).max_lat = b0.min_lat + b0.max_lat ∧
    (Og.aspect_correct (Og.ensure_min_span b0 min_range) target_aspect).min_lon +
        (Og.aspect_correct (Og.ensure_min_span b0 min_range) target_aspect).max_lon =
      (Og.ensure_min_span b0 min_range).min_lon +
        (Og.ensure_min_span b0 min_range).max_lon ∧
    (Og.aspect_correct (Og.ensure_min_span b0 min_range) target_aspect).min_lat +
        (Og.aspect_correct (Og.ensure_min_span b0 min_range) target_aspect).max_lat =
      (Og.ensure_min_span b0 min_range).min_lat +
        (Og.ensure_min_span b0 min_range).max_lat := by
  obtain ⟨e1, e2, e3, e4⟩ := Og.ensure_min_span_spans b0 min_range
  have hT1 : 0 < (Og.ensure_min_span b0 min_range).max_lat -
      (Og.ensure_min_span b0 min_range).min_lat := by
    rw [e2]; exact lt_of_lt_of_le hmr (le_max_right _ _)
  obtain ⟨a1, a2, a3, c1, c2⟩ :=
    Og.aspect_correct_props (Og.ensure_min_span b0 min_range) target_aspect hT1 hta
  obtain ⟨p1, p2⟩ :=
    Og.add_padding_spans
      (Og.aspect_correct (Og.ensure_min_span b0 min_range) target_aspect) pad_fraction
  have hm1 : min_range ≤ (Og.ensure_min_span b0 min_range).max_lon -
      (Og.ensure_min_span b0 min_range).min_lon := by
    rw [e1]; exact le_max_right _ _
  have hm2 : min_range ≤ (Og.ensure_min_span b0 min_range).max_lat -
      (Og.ensure_min_span b0 min_range).min_lat := by
    rw [e2]; exact le_max_right _ _
  have hfac : (1 + 2 * pad_fraction) ≠ 0 := by linarith
  refine ⟨le_trans hm1 a1, le_trans hm2 a2, a3, ?_, e3, e4, c1, c2⟩
  rw [p1, p2, mul_div_mul_left _ _ hfac]
  exact a3

/-- Claim C4, confirmed.  For any nonempty activity coordinate set and any
positive `min_range`, positive `target_aspect`, and nonnegative padding
fraction, the bounds computation of `generate_real_transit_map` — minimum
span, then aspect correction, then padding, each symmetric around the box
center — yields pre-padding spans of at least `min_range` on both axes and
a span quotient `(max_lon - min_lon) / (max_lat - min_lat)` exactly equal
to `target_aspect` both before and after padding; at the source's literals
the final bounds have span quotient exactly `16 / 9`. -/
theorem c4_bounds_min_span_and_aspect (locations : List Og.TimelineLocation)
    (segments : List Og.TimelineSegment) (min_range target_aspect pad_fraction : ℚ)
    (hne : Og.collect_all_locations locations segments ≠ [])
    (hmr : 0 < min_range) (hta : 0 < target_aspect) (hp : 0 ≤ pad_fraction) :
    (min_range ≤
        (Og.aspect_correct
          (Og.ensure_min_span
            (Og.total_bounds (Og.collect_all_locations locations segments))
            min_range) target_aspect).max_lon -
        (Og.aspect_correct
          (Og.ensure_min_span
            (Og.total_bounds (Og.collect_all_locations locations segments))
            min_range) target_aspect).min_lon) ∧
    (min_range ≤
        (Og.aspect_correct
          (Og.ensure_min_span
            (Og.total_bounds (Og.collect_all_locations locations segments))
            min_range) target_aspect).max_lat -
        (Og.aspect_correct
          (Og.ensure_min_span
            (Og.total_bounds (Og.collect_all_locations locations segments))
            min_range) target_aspect).min_lat) ∧
    ((Og.aspect_correct
          (Og.ensure_min_span
            (Og.total_bounds (Og.collect_all_locations locations segments))
            min_range) target_aspect).max_lon -
        (Og.aspect_correct
          (Og.ensure_min_span
            (Og.total_bounds (Og.collect_all_locations locations segments))
            min_range) target_aspect).min_lon) /
      ((Og.aspect_correct
          (Og.ensure_min_span
            (Og.total_bounds (Og.collect_all_locations locations segments))
            min_range) target_aspect).max_lat -
        (Og.aspect_correct
          (Og.ensure_min_span
            (Og.total_bounds (Og.collect_all_locations locations segments))
            min_range) target_aspect).min_lat) = target_aspect ∧
    ((Og.add_padding
        (Og.aspect_correct
          (Og.ensure_min_span
            (Og.total_bounds (Og.collect_all_locations locations segments))
            min_range) target_aspect) pad_fraction).max_lon -
      (Og.add_padding
        (Og.aspect_correct
          (Og.ensure_min_span
            (Og.total_bounds (Og.collect_all_locations locations segments))
            min_range) target_aspect) pad_fraction).min_lon) /
      ((Og.add_padding
          (Og.aspect_correct
            (Og.ensure_min_span
              (Og.total_bounds (Og.collect_all_locations locations segments))
              min_range) target_aspect) pad_fraction).max_lat -
        (Og.add_padding
          (Og.aspect_correct
            (Og.ensure_min_span
              (Og.total_bounds (Og.collect_all_locations locations segments))
              min_range) target_aspect) pad_fraction).min_lat) = target_aspect ∧
    ((Og.generate_real_transit_map_bounds locations segments).max_lon -
        (Og.generate_real_transit_map_bounds locations segments).min_lon) /
      ((Og.generate_real_transit_map_bounds locations segments).max_lat -
        (Og.generate_real_transit_map_bounds locations segments).min_lat) =
      16 / 9 := by
  obtain ⟨hlon, hlat⟩ := Og.total_bounds_le _ hne
  obtain ⟨g1, g2, g3, g4, _, _, _, _⟩ :=
    Og.bounds_pipeline (Og.total_bounds (Og.collect_all_locations locations segments))
      min_range target_aspect pad_fraction hlon hlat hmr hta hp
  obtain ⟨_, _, _, l4, _, _, _, _⟩ :=
    Og.bounds_pipeline (Og.total_bounds (Og.collect_all_locations locations segments))
      0.015 (16 / 9) 0.25 hlon hlat (by norm_num) (by norm_num) (by norm_num)
  exact ⟨g1, g2, g3, g4, l4⟩

/-- Claim C4 witness: a single place at the origin with no segments; all
parameter hypotheses hold at `min_range = 1`, `target_aspect = 2`,
`pad_fraction = 1 / 10`. -/
theorem c4_bounds_min_span_and_aspect_witness :
    Og.collect_all_locations [⟨0, 0⟩] [] ≠ [] ∧ (0 : ℚ) < 1 ∧ (0 : ℚ) < 2 ∧
    (0 : ℚ) ≤ 1 / 10 ∧
    ((Og.aspect_correct (Og.ensure_min_span
          (Og.total_bounds (Og.collect_all_locations [⟨0, 0⟩] [])) 1) 2).max_lon -
        (Og.aspect_correct (Og.ensure_min_span
          (Og.total_bounds (Og.collect_all_locations [⟨0, 0⟩] [])) 1) 2).min_lon) /
      ((Og.aspect_correct (Og.ensure_min_span
          (Og.total_bounds (Og.collect_all_locations [⟨0, 0⟩] [])) 1) 2).max_lat -
        (Og.aspect_correct (Og.ensure_min_span
          (Og.total_bounds (Og.collect_all_locations [⟨0, 0⟩] [])) 1) 2).min_lat) =
      2 :=
  ⟨by simp [Og.collect_all_locations], by norm_num, by norm_num, by norm_num,
   ((c4_bounds_min_span_and_aspect [⟨0, 0⟩] [] 1 2 (1 / 10)
      (by simp [Og.collect_all_locations]) (by norm_num) (by norm_num)
      (by norm_num)).2.2).1⟩

/-! Claim theorems: coordinate projection (C5, C6), parsing (C7), colors (C9). -/

/-- Claim C5, confirmed.  For bounds with nonzero spans, projecting the
exact center of the bounds yields the scene point (0, 0) — for the og
converter at any scene size, and for the nyc converter at its fixed
14 × 7.875 scene — because both compute
`(normalized - 0.5) * scene_dimension` on each axis. -/
theorem c5_projection_center (c : Og.SimpleCoordinateConverter)
    (hlon : c.max_lon - c.min_lon ≠ 0) (hlat : c.max_lat - c.min_lat ≠ 0) :
    Og.to_scene_coords c ((c.min_lat + c.max_lat) / 2)
        ((c.min_lon + c.max_lon) / 2) = (0, 0) ∧
    Nyc.lat_lng_to_manim ⟨c.min_lon, c.min_lat, c.max_lon, c.max_lat⟩
        ((c.min_lat + c.max_lat) / 2) ((c.min_lon + c.max_lon) / 2) =
      Except.ok (0, 0) := by
  have hx : ((c.min_lon + c.max_lon) / 2 - c.min_lon) / (c.max_lon - c.min_lon) =
      1 / 2 := by
    rw [div_eq_div_iff hlon (by norm_num)]; ring
  have hy : ((c.min_lat + c.max_lat) / 2 - c.min_lat) / (c.max_lat - c.min_lat) =
      1 / 2 := by
    rw [div_eq_div_iff hlat (by norm_num)]; ring
  constructor
  · simp only [Og.to_scene_coords, if_pos hlon, if_pos hlat, hx]
    rw [hy]
    norm_num
  · simp only [Nyc.lat_lng_to_manim, if_neg hlon, if_neg hlat, hx]
    rw [hy]
    norm_num

/-- Claim C5 witness: centered projection of the concrete bounds
(0, 0) – (2, 2) yields the scene origin in both converters. -/
theorem c5_projection_center_witness :
    ((2 : ℚ) - 0 ≠ 0) ∧
    Og.to_scene_coords ⟨0, 0, 2, 2, 14, 8⟩ ((0 + 2) / 2) ((0 + 2) / 2) = (0, 0) ∧
    Nyc.lat_lng_to_manim ⟨0, 0, 2, 2⟩ ((0 + 2) / 2) ((0 + 2) / 2) =
      Except.ok (0, 0) := by
  exact ⟨by norm_num,
    (c5_projection_center ⟨0, 0, 2, 2, 14, 8⟩ (by norm_num) (by norm_num)).1,
    (c5_projection_center ⟨0, 0, 2, 2, 14, 8⟩ (by norm_num) (by norm_num)).2⟩

/-- Claim C6, amended.  The og converter (`SimpleCoordinateConverter`) is
total: when an axis span is exactly zero the normalized position is
treated as 0.5, so the scene coordinate on that axis is 0 and projection
never fails.  The nyc converter (`CoordinateConverter.lat_lng_to_manim`),
however, divides by the spans unguarded and raises `ZeroDivisionError`
exactly when either axis span is zero. -/
theorem c6_projector_zero_span (c : Og.SimpleCoordinateConverter) (lat lon : ℚ)
    (b : Nyc.MapBounds) (lat2 lng2 : ℚ) :
    (c.max_lon - c.min_lon = 0 → (Og.to_scene_coords c lat lon).1 = 0) ∧
    (c.max_lat - c.min_lat = 0 → (Og.to_scene_coords c lat lon).2 = 0) ∧
    (Nyc.lat_lng_to_manim b lat2 lng2 = Except.error "float division by zero" ↔
      (b.max_lng - b.min_lng = 0 ∨ b.max_lat - b.min_lat = 0)) := by
  refine ⟨?_, ?_, ?_⟩
  · intro h
    simp [Og.to_scene_coords, h]
  · intro h
    simp [Og.to_scene_coords, h]
  · simp only [Nyc.lat_lng_to_manim]
    split_ifs with h1 h2
    · simp [h1]
    · simp [h2]
    · simp [h1, h2]

/-- Claim C6 counterexample: on degenerate bounds (all four components 0)
the nyc converter raises `ZeroDivisionError` while the og converter, whose
zero-span guard treats the normalized position as 0.5, still projects —
so the coordinate projector is not total for every input bounds. -/
theorem c6_nyc_zero_span_counterexample :
    Nyc.lat_lng_to_manim ⟨0, 0, 0, 0⟩ 1 1 =
      Except.error "float division by zero" ∧
    Og.to_scene_coords ⟨0, 0, 0, 0, 14, 8⟩ 1 1 = (0, 0) := by
  constructor
  · norm_num [Nyc.lat_lng_to_manim]
  · norm_num [Og.to_scene_coords]

/-- Claim C7, amended.  The nyc parser reads longitude by attempting
`longitudeE7`, falling back to `lngE7`, and defaulting to 0 when both are
absent; every missing numeric field defaults to 0 and nothing raises.
The og parser chooses the longitude key by the same primary/secondary
rule but subscripts directly, so it raises `KeyError` (returns `none`
here) exactly when `latitudeE7` or both longitude keys are absent. -/
theorem c7_parser_longitude_fallback (location : Nyc.Fields) :
    ((Nyc.parse_location_coords location).2 =
      (match location.lookup "longitudeE7" with
        | some v => (v : ℚ)
        | none =>
          match location.lookup "lngE7" with
          | some w => (w : ℚ)
          | none => 0) / 10 ^ 7) ∧
    ((Nyc.parse_location_coords location).1 =
      (match location.lookup "latitudeE7" with
        | some v => (v : ℚ)
        | none => 0) / 10 ^ 7) ∧
    ((Og.parse_segment_location location).isSome ↔
      ((location.lookup "latitudeE7").isSome ∧
        ((location.lookup "longitudeE7").isSome ∨
          (location.lookup "lngE7").isSome))) ∧
    ((Og.parse_place_visit_location location).isSome ↔
      ((location.lookup "latitudeE7").isSome ∧
        (location.lookup "longitudeE7").isSome)) := by
  cases h1 : location.lookup "latitudeE7" <;>
    cases h2 : location.lookup "longitudeE7" <;>
      cases h3 : location.lookup "lngE7" <;>
        simp [Nyc.parse_location_coords, Nyc.pyGet, Og.parse_segment_location,
          Og.parse_place_visit_location, h1, h2, h3]

/-- Claim C7 counterexample: a location record carrying only `latitudeE7`.
The og parser raises `KeyError` on the missing longitude keys instead of
defaulting to 0; the nyc parser defaults the longitude to 0. -/
theorem c7_og_missing_longitude_counterexample :
    Og.parse_segment_location [("latitudeE7", 407589000)] = none ∧
    Nyc.parse_location_coords [("latitudeE7", 407589000)] =
      (407589000 / 10 ^ 7, 0) := by
  constructor
  · simp [Og.parse_segment_location, List.lookup]
  · simp [Nyc.parse_location_coords, Nyc.pyGet, List.lookup]

/-- Claim C9, confirmed.  Both cited color extractors equal their
specification functions: each returns the first element's color attribute
when the metadata field is a JSON-encoded nonempty array whose first
element has one (the og variant rendering it behind a `"#"` prefix), and
its fixed default color (`#000000` for the nyc extractor, `#0039A6` for
the og one) in every other case — missing or falsy field, non-string
non-list value, malformed JSON, empty array, non-dict first element,
missing color attribute — and, being total, neither raises (the og
variant catches every exception of its `try` body). -/
theorem c9_line_color_refines_spec (f : Nyc.LinesField) :
    Nyc.extract_line_color f = extract_line_color_spec f ∧
    Og.extract_line_color f = og_extract_line_color_spec f := by
  constructor
  · cases f with
    | missing => rfl
    | ofDict fields => cases fields <;> rfl
    | ofStr s parsed =>
      by_cases hs : s = ""
      · cases parsed with
        | none => simp [Nyc.extract_line_color, extract_line_color_spec, hs]
        | some v =>
          cases v with
          | plist xs =>
            cases xs with
            | nil => simp [Nyc.extract_line_color, extract_line_color_spec, hs]
            | cons first rest =>
              cases first <;>
                simp [Nyc.extract_line_color, Nyc.color_of_lines_data,
                  extract_line_color_spec, hs]
          | pstr _ => simp [Nyc.extract_line_color, extract_line_color_spec, hs]
          | pint _ => simp [Nyc.extract_line_color, extract_line_color_spec, hs]
          | pdict _ => simp [Nyc.extract_line_color, extract_line_color_spec, hs]
      · cases parsed with
        | none => simp [Nyc.extract_line_color, extract_line_color_spec, hs]
        | some v =>
          cases v with
          | plist xs =>
            cases xs with
            | nil =>
              simp [Nyc.extract_line_color, Nyc.color_of_lines_data,
                extract_line_color_spec, hs]
            | cons first rest =>
              cases first <;>
                simp [Nyc.extract_line_color, Nyc.color_of_lines_data,
                  extract_line_color_spec, hs]
          | pstr _ =>
            simp [Nyc.extract_line_color, Nyc.color_of_lines_data,
              extract_line_color_spec, hs]
          | pint _ =>
            simp [Nyc.extract_line_color, Nyc.color_of_lines_data,
              extract_line_color_spec, hs]
          | pdict _ =>
            simp [Nyc.extract_line_color, Nyc.color_of_lines_data,
              extract_line_color_spec, hs]
  · cases f with
    | missing => rfl
    | ofDict fields => cases fields <;> rfl
    | ofStr s parsed =>
      by_cases hs : s = ""
      · cases parsed with
        | none => simp [Og.extract_line_color, og_extract_line_color_spec, hs]
        | some v =>
          cases v with
          | plist xs =>
            cases xs with
            | nil => simp [Og.extract_line_color, og_extract_line_color_spec, hs]
            | cons first rest =>
              cases first <;>
                simp [Og.extract_line_color, Og.color_of_lines_data,
                  og_extract_line_color_spec, hs]
          | pstr _ => simp [Og.extract_line_color, og_extract_line_color_spec, hs]
          | pint _ => simp [Og.extract_line_color, og_extract_line_color_spec, hs]
          | pdict _ => simp [Og.extract_line_color, og_extract_line_color_spec, hs]
      · cases parsed with
        | none => simp [Og.extract_line_color, og_extract_line_color_spec, hs]
        | some v =>
          cases v with
          | plist xs =>
            cases xs with
            | nil =>
              simp [Og.extract_line_color, Og.color_of_lines_data,
                og_extract_line_color_spec, hs]
            | cons first rest =>
              cases first <;>
                simp [Og.extract_line_color, Og.color_of_lines_data,
                  og_extract_line_color_spec, hs]
          | pstr _ =>
            simp [Og.extract_line_color, Og.color_of_lines_data,
              og_extract_line_color_spec, hs]
          | pint _ =>
            simp [Og.extract_line_color, Og.color_of_lines_data,
              og_extract_line_color_spec, hs]
          | pdict _ =>
            simp [Og.extract_line_color, Og.color_of_lines_data,
              og_extract_line_color_spec, hs]
